import Mathlib

/-!
Shallow embedding of the discosat/sattrack ground-station tracker
(`app/services/satellite_tracker.py`, `app/services/rotor_controller.py`,
`app/api/rotor_routes.py`) and proofs about it.

Time is modelled as `ℚ`, measured in days (both Python `datetime` values and
skyfield `Time` values are totally ordered instants; `timedelta(days=7)`
becomes `+ 7`, skyfield's `start + 1` becomes `+ 1`, `t[-1] + 0.1` becomes
`+ 1/10`).
-/

namespace Sattrack

/-- An instant in UTC, measured in days. -/
abbrev Time := ℚ

/-- Model of `Pass` (satellite_tracker.py lines 19-31): rise, culminate and set
instants of one satellite pass, all UTC. -/
structure Pass where
  rise : Time
  culminate : Time
  set : Time
deriving DecidableEq, Repr

/-! ## Scheduler admission (`schedule_pass`, `_is_overlapping`)

The source of `schedule_pass` (lines 366-384) and `_is_overlapping`
(lines 386-412) is garbled Python: the parameter is named `pass` (a reserved
keyword, so the module cannot parse), line 399 lacks a colon, and the names
`datetieme`, `pass_obj`, `self.tracking`, `self.schedueled_pass` and
`self.schedueled_passes` are unbound.  Each misspelling has a unique referent
elsewhere in the class (`datetime.now`, the `pass` argument,
`self.is_tracking`, `self.scheduled_passes`).  `schedule_pass` below embeds
the evident logic with those name slips resolved; `schedule_pass_literal`
keeps the unbound-name fault so that the actual run-time behaviour of the
source can be stated. -/

/-- State owned by the scheduler: the priority queue of `(rise, pass)`
entries (the heap is modelled as the list of entries it holds), the
`is_tracking` flag, and `tracking_data["current_pass"]`. -/
structure SchedState where
  scheduled_passes : List (Time × Pass)
  is_tracking : Bool
  current_pass : Option Pass
deriving DecidableEq, Repr

/-- The pairwise overlap condition applied by `_is_overlapping` to the
in-flight pass (lines 391-394) and, identically, to each queued pass
(lines 402-405): `new.rise < p.set and new.set > p.rise`, or-ed with the
redundant `new.rise > p.rise and new.rise < p.set`. -/
def passOverlapCheck (new_pass p : Pass) : Bool :=
  (decide (new_pass.rise < p.set) && decide (new_pass.set > p.rise)) ||
  (decide (new_pass.rise > p.rise) && decide (new_pass.rise < p.set))

/-- The half-open-interval overlap test named by the specification:
`A.rise < B.set AND B.rise < A.set`. -/
def overlapsHalfOpen (a b : Pass) : Bool :=
  decide (a.rise < b.set) && decide (b.rise < a.set)

/-- Embedding of `_is_overlapping` (lines 386-412, name slips resolved): if a session is
tracking and has a current pass, first test against it and return early on a
hit; then scan every queued entry (the drain-into-temporary-queue-and-restore
loop visits each entry and puts it back, so the queue is unchanged and the
result is true iff some entry matches). -/
def isOverlapping (st : SchedState) (new_pass : Pass) : Bool :=
  match st.is_tracking, st.current_pass with
  | true, some current_pass =>
    if passOverlapCheck new_pass current_pass then true
    else st.scheduled_passes.any fun e => passOverlapCheck new_pass e.2
  | _, _ => st.scheduled_passes.any fun e => passOverlapCheck new_pass e.2

/-- Embedding of `schedule_pass` (lines 366-384, name slips resolved), with the call
`datetime.now()` passed in as `now`: reject a pass whose rise is not in the
future, reject one rising more than seven days ahead, reject one overlapping
the in-flight or a queued pass, and otherwise put `(pass.rise, pass)` into
the priority queue and report success. -/
def schedule_pass (st : SchedState) (now : Time) (p : Pass) : Bool × SchedState :=
  if p.rise ≤ now then (false, st)
  else if p.rise > now + 7 then (false, st)
  else if isOverlapping st p then (false, st)
  else (true, { st with scheduled_passes := st.scheduled_passes ++ [(p.rise, p)] })

/-- A Python run-time error. -/
inductive PyError where
  | nameError (name : String)
  | valueError (msg : String)
deriving DecidableEq, Repr

/-- Embedding of `schedule_pass` exactly as the source runs it: the first statement,
`now = datetieme.now`, references the unbound name `datetieme`, so every
call raises `NameError` before any check happens (and the enclosing module
does not even parse, since the parameter is the keyword `pass`). -/
def schedule_pass_literal (st : SchedState) (p : Pass) :
    Except PyError (Bool × SchedState) := do
  let now ← (Except.error (PyError.nameError "datetieme") : Except PyError Time)
  if p.rise ≤ now then return (false, st)
  else if p.rise > now + 7 then return (false, st)
  else if isOverlapping st p then return (false, st)
  else return (true, { st with scheduled_passes := st.scheduled_passes ++ [(p.rise, p)] })

/-- Run a sequence of `schedule_pass` calls, each with its own `now`,
threading the scheduler state and discarding the returned flags. -/
def runSchedule : List (Time × Pass) → SchedState → SchedState
  | [], st => st
  | c :: cs, st => runSchedule cs (schedule_pass st c.1 c.2).2

/-- The admission invariant: no two queued passes overlap under the
half-open test, and when a session is tracking a current pass no queued
pass overlaps it. -/
def SchedInv (st : SchedState) : Prop :=
  st.scheduled_passes.Pairwise (fun a b => overlapsHalfOpen a.2 b.2 = false) ∧
  ∀ cp, st.is_tracking = true → st.current_pass = some cp →
    ∀ e ∈ st.scheduled_passes, overlapsHalfOpen e.2 cp = false

/-! ## Tracking session (`_track_satellite`, `stop_tracking`)

`_track_satellite` (lines 242-301) drives one pass: wait until rise
(cancellable), then loop once per second.  The loop body and the terminal
transitions are embedded below; the instantaneous azimuth / elevation /
distance computed by skyfield for the current tick enter as parameters. -/

/-- Model of `self.tracking_data` (lines 50-57): the telemetry snapshot. -/
structure Telemetry where
  azimuth : ℚ
  elevation : ℚ
  distance : ℚ
  last_updated : Option Time
  status : String
  current_pass : Option Pass
deriving DecidableEq, Repr

/-- Facade state touched by the session-terminal transitions. -/
structure TrackerState where
  tracking_data : Telemetry
  is_tracking : Bool
deriving DecidableEq, Repr

/-- Whether one iteration of the tracking loop breaks out of the loop. -/
inductive TickOutcome where
  | exitLoop
  | continueLoop
deriving DecidableEq, Repr

/-- What one iteration of the tracking loop did: the rotor write commands it
issued (`await self.rotor.write(az, el)`), the telemetry it left behind, and
whether it broke out of the loop. -/
structure TickResult where
  rotor_writes : List (ℚ × ℚ)
  telemetry : Telemetry
  outcome : TickOutcome
deriving DecidableEq, Repr

/-- One iteration of the tracking loop (lines 264-298).  In source order:
if `now > sat_pass.set` break; compute the topocentric `alt, az, distance`
(passed in as `el`, `az`, `dist`); write `(az, el)` to the rotor; update
`tracking_data` with azimuth, elevation, distance and `last_updated = now`;
if `alt.degrees < 0` break; wait one second on the stop event and break if
it was set (`cancelled`). -/
def trackTick (sat_pass : Pass) (now : Time) (az el dist : ℚ) (cancelled : Bool)
    (tel : Telemetry) : TickResult :=
  if now > sat_pass.set then
    ⟨[], tel, .exitLoop⟩
  else
    let tel2 := { tel with azimuth := az, elevation := el, distance := dist,
                           last_updated := some now }
    if el < 0 then ⟨[(az, el)], tel2, .exitLoop⟩
    else if cancelled then ⟨[(az, el)], tel2, .exitLoop⟩
    else ⟨[(az, el)], tel2, .continueLoop⟩

/-- The cancel-before-rise exit of `_track_satellite` (lines 251-255):
`tracking_data["status"] = "idle"`, `is_tracking = False`, return. -/
def cancelBeforeRiseExit (st : TrackerState) : TrackerState :=
  { st with tracking_data := { st.tracking_data with status := "idle" },
            is_tracking := false }

/-- The epilogue after the tracking loop breaks for any reason
(lines 299-301): `tracking_data["status"] = "idle"`, `is_tracking = False`.
The `current_pass` entry of `tracking_data` is not touched. -/
def trackLoopEpilogue (st : TrackerState) : TrackerState :=
  { st with tracking_data := { st.tracking_data with status := "idle" },
            is_tracking := false }

/-- Embedding of `stop_tracking` (lines 303-317): returns `False` and changes nothing if
no session is active; otherwise signals the stop event, joins the thread,
clears `is_tracking`, sets the status to `"idle"`, clears `current_pass`
and returns `True`. -/
def stop_tracking (st : TrackerState) : Bool × TrackerState :=
  if st.is_tracking then
    (true, { st with
             is_tracking := false,
             tracking_data := { st.tracking_data with
                                status := "idle",
                                current_pass := none } })
  else (false, st)

/-! ## Next-pass search (`_get_next_pass`, `get_next_pass`)

`find_events` is skyfield's event finder: for a window start it returns a
sequence of `(time, event)` pairs with event 0 = rise, 1 = culminate,
2 = set.  It depends on the satellite and observer location, so it enters
the embedding as a function parameter `find`. -/

/-- skyfield `Timescale.from_datetime`: requires a timezone-aware
`datetime`, so applying it to `None` raises before returning.  Applied to
an actual datetime it returns the corresponding (truthy) `Time`. -/
def from_datetime (d : Option Time) : Except PyError Time :=
  match d with
  | none => .error (.valueError "from_datetime requires a datetime, not None")
  | some t => .ok t

/-- Line 189: `len(events) >= 3 and events[0] == 0 and events[1] == 1 and
events[2] == 2`, building a `Pass` from the first three times on a hit. -/
def findPassInEvents (evs : List (Time × Nat)) : Option Pass :=
  match evs with
  | (t0, 0) :: (t1, 1) :: (t2, 2) :: _ => some ⟨t0, t1, t2⟩
  | _ => none

/-- Lines 195-198: the next window start — `t[-1] + 0.1` when the previous
window produced events, `start + 1` (one day) otherwise. -/
def nextStart (start : Time) (evs : List (Time × Nat)) : Time :=
  match evs.getLast? with
  | some e => e.1 + 1/10
  | none => start + 1

/-- The `while attempts < max_attempts` loop of `_get_next_pass`
(lines 185-204): check the current window's events for a complete pass;
otherwise advance the window, call `find` again and increment `attempts`.
Returns the result together with the final value of `attempts`. -/
def searchLoop (find : Time → List (Time × Nat)) :
    Time → List (Time × Nat) → Nat → Option Pass × Nat
  | start, evs, attempts =>
    if attempts < 10 then
      match findPassInEvents evs with
      | some p => (some p, attempts)
      | none =>
        let s2 := nextStart start evs
        searchLoop find s2 (find s2) (attempts + 1)
    else (none, attempts)
termination_by _start _evs attempts => 10 - attempts

/-- Embedding of `_get_next_pass` (lines 172-204).  Line 181 is
`start = self.ts.from_datetime(start_date) or self.ts.now()`: Python
evaluates `from_datetime(start_date)` first, which raises when
`start_date` is `None`, and a `Time` object is always truthy, so the
`or self.ts.now()` fallback (the `ts_now` parameter) is dead code. -/
def get_next_pass_inner (find : Time → List (Time × Nat)) (ts_now : Time)
    (start_date : Option Time) : Except PyError (Option Pass) := do
  let start ← from_datetime start_date
  let _ := ts_now
  pure (searchLoop find start (find start) 0).1

/-- Embedding of `get_next_pass` (lines 165-170): `None` when no satellite is loaded,
otherwise `_get_next_pass(min_elevation)` — note that the public path never
supplies `start_date`, which therefore stays `None`. -/
def get_next_pass (find : Time → List (Time × Nat)) (ts_now : Time)
    (satellite_loaded : Bool) : Except PyError (Option Pass) :=
  if satellite_loaded then get_next_pass_inner find ts_now none
  else .ok none

/-! ## TLE loading (`load_satellite`, `reload_satellite`) -/

/-- What the TLE source file at `TLE_FILE_PATH` can look like: absent,
present but failing to parse (the caught exception of lines 108-110), or
parsing to a list of satellites, each identified by its name. -/
inductive TleSource where
  | missing
  | parseFailure
  | entries (sats : List String)
deriving DecidableEq, Repr

/-- The satellite fields of the tracker, plus the `is_tracking` flag that
guards reloading. -/
structure SatState where
  satellite : Option String
  satellite_name : Option String
  sat_is_tracking : Bool
deriving DecidableEq, Repr

/-- Embedding of `load_satellite` (lines 89-110): `False` when the file does not exist;
`False` when parsing raises (caught); `False` when the file parses to no
satellites; otherwise store `satellites[0]` and its name and return
`True`.  On every `False` path the previously loaded satellite is left as
it was. -/
def load_satellite (src : TleSource) (st : SatState) : Bool × SatState :=
  match src with
  | .missing => (false, st)
  | .parseFailure => (false, st)
  | .entries sats =>
    match sats with
    | [] => (false, st)
    | s :: _ => (true, { st with satellite := some s, satellite_name := some s })

/-- Embedding of `reload_satellite` (lines 331-336): refuse while tracking, otherwise
delegate to `load_satellite`. -/
def reload_satellite (src : TleSource) (st : SatState) : Bool × SatState :=
  if st.sat_is_tracking then (false, st)
  else load_satellite src st

/-! ## HTTP rotor control endpoint (`rotor_routes.py` lines 26-45) -/

/-- Outcome of the `/rotor/control` endpoint: either a 400 client error
raised before any command is issued, or a `rotctl P az el` command reaching
the rotor layer. -/
inductive RotorResponse where
  | clientError (detail : String)
  | commanded (az el : Int)
deriving DecidableEq, Repr

/-- Embedding of `rotor_control` (rotor_routes.py lines 26-45): reject with 400 when
`azimuth > 180 or azimuth < -180`; reject with 400 when
`elevation < 1 or elevation > 90`; only then run the rotor command. -/
def rotor_control (azimuth elevation : Int) : RotorResponse :=
  if azimuth > 180 ∨ azimuth < -180 then
    .clientError "Azimuth must be between 180 and -180"
  else if elevation < 1 ∨ elevation > 90 then
    .clientError "Elevation must be between 0 and 90"
  else .commanded azimuth elevation

/-! ## Helper lemmas -/

lemma passOverlapCheck_eq_true_iff (a b : Pass) :
    passOverlapCheck a b = true ↔
      (a.rise < b.set ∧ b.rise < a.set) ∨ (b.rise < a.rise ∧ a.rise < b.set) := by
  simp [passOverlapCheck]

lemma overlapsHalfOpen_eq_true_iff (a b : Pass) :
    overlapsHalfOpen a b = true ↔ a.rise < b.set ∧ b.rise < a.set := by
  simp [overlapsHalfOpen]

lemma overlapsHalfOpen_comm (a b : Pass) :
    overlapsHalfOpen a b = overlapsHalfOpen b a := by
  simp only [overlapsHalfOpen]
  exact Bool.and_comm _ _

lemma halfOpen_imp_check {a b : Pass} (h : overlapsHalfOpen a b = true) :
    passOverlapCheck a b = true := by
  rw [overlapsHalfOpen_eq_true_iff] at h
  rw [passOverlapCheck_eq_true_iff]
  exact Or.inl h

lemma check_false_halfOpen {a b : Pass} (h : passOverlapCheck a b = false) :
    overlapsHalfOpen a b = false := by
  cases hx : overlapsHalfOpen a b with
  | false => rfl
  | true => rw [halfOpen_imp_check hx] at h; exact Bool.noConfusion h

lemma isOverlapping_false_elim {st : SchedState} {p : Pass}
    (h : isOverlapping st p = false) :
    (∀ e ∈ st.scheduled_passes, passOverlapCheck p e.2 = false) ∧
    ∀ cp, st.is_tracking = true → st.current_pass = some cp →
      passOverlapCheck p cp = false := by
  have hq : (st.scheduled_passes.any fun e => passOverlapCheck p e.2) = false ∧
      ∀ cp, st.is_tracking = true → st.current_pass = some cp →
        passOverlapCheck p cp = false := by
    unfold isOverlapping at h
    cases htr : st.is_tracking with
    | false =>
      rw [htr] at h
      exact ⟨h, fun cp hq' => Bool.noConfusion hq'⟩
    | true =>
      cases hcp : st.current_pass with
      | none =>
        rw [htr, hcp] at h
        exact ⟨h, fun cp _ hq' => Option.noConfusion hq'⟩
      | some cp0 =>
        rw [htr, hcp] at h
        have h' : (if passOverlapCheck p cp0 then true
            else st.scheduled_passes.any fun e => passOverlapCheck p e.2) = false := h
        by_cases hc : passOverlapCheck p cp0 = true
        · rw [if_pos hc] at h'; exact Bool.noConfusion h'
        · rw [if_neg hc] at h'
          refine ⟨h', fun cp htr2 hcp2 => ?_⟩
          obtain rfl : cp0 = cp := by injection hcp2
          exact Bool.eq_false_iff.mpr hc
  refine ⟨fun e he => ?_, hq.2⟩
  cases hpe : passOverlapCheck p e.2 with
  | false => rfl
  | true =>
    have : (st.scheduled_passes.any fun e => passOverlapCheck p e.2) = true :=
      List.any_eq_true.mpr ⟨e, he, hpe⟩
    rw [hq.1] at this
    exact Bool.noConfusion this

lemma schedule_pass_preserves_inv (now : Time) (p : Pass) {st : SchedState}
    (h : SchedInv st) : SchedInv (schedule_pass st now p).2 := by
  by_cases h1 : p.rise ≤ now
  · simpa only [schedule_pass, if_pos h1] using h
  by_cases h2 : p.rise > now + 7
  · simpa only [schedule_pass, if_neg h1, if_pos h2] using h
  by_cases h3 : isOverlapping st p = true
  · simpa only [schedule_pass, if_neg h1, if_neg h2, if_pos h3] using h
  have h3f : isOverlapping st p = false := Bool.eq_false_iff.mpr h3
  have hstep : (schedule_pass st now p).2 =
      { st with scheduled_passes := st.scheduled_passes ++ [(p.rise, p)] } := by
    simp only [schedule_pass, if_neg h1, if_neg h2, if_neg h3]
  rw [hstep]
  have hel := isOverlapping_false_elim h3f
  constructor
  · rw [List.pairwise_append]
    refine ⟨h.1, List.pairwise_singleton _ _, ?_⟩
    intro a ha b hb
    have hb' : b = (p.rise, p) := by simpa using hb
    subst hb'
    rw [overlapsHalfOpen_comm]
    exact check_false_halfOpen (hel.1 a ha)
  · intro cp htr hcp e he
    rcases List.mem_append.mp he with hl | hr
    · exact h.2 cp htr hcp e hl
    · have he' : e = (p.rise, p) := by simpa using hr
      subst he'
      exact check_false_halfOpen (hel.2 cp htr hcp)

/-! ## Claim theorems -/

/-- C1: the source of `schedule_pass` cannot perform the claimed
admission checks at all — its first statement references the unbound name
`datetieme`, so every call raises `NameError` instead of returning a
rejection or success value (and the surrounding module does not even
parse, the parameter being the keyword `pass`). -/
theorem schedule_pass_always_raises (st : SchedState) (p : Pass) :
    schedule_pass_literal st p = .error (.nameError "datetieme") := rfl

/-- C2: after any sequence of `schedule_pass` calls starting from an empty
queue (with the typo-repaired admission logic of the source), no two queued
passes overlap under the half-open test `A.rise < B.set AND B.rise < A.set`,
and no queued pass overlaps the active session's current pass. -/
theorem schedule_admission_invariant (tr : Bool) (cp : Option Pass)
    (calls : List (Time × Pass)) :
    SchedInv (runSchedule calls ⟨[], tr, cp⟩) := by
  have main : ∀ (cs : List (Time × Pass)) (st : SchedState),
      SchedInv st → SchedInv (runSchedule cs st) := by
    intro cs
    induction cs with
    | nil => intro st hst; exact hst
    | cons c cs ih =>
      intro st hst
      exact ih _ (schedule_pass_preserves_inv c.1 c.2 hst)
  refine main calls _ ⟨List.Pairwise.nil, ?_⟩
  intro cp' _ _ e he
  exact absurd he (List.not_mem_nil e)

/-- Witness for C2 at a concrete call sequence. -/
theorem schedule_admission_invariant_witness :
    SchedInv (runSchedule [(0, ⟨1, 2, 3⟩), (0, ⟨2, 3, 4⟩), (0, ⟨5, 6, 7⟩)]
      ⟨[], false, none⟩) :=
  schedule_admission_invariant false none
    [(0, ⟨1, 2, 3⟩), (0, ⟨2, 3, 4⟩), (0, ⟨5, 6, 7⟩)]

/-- C3: the scheduler's pairwise overlap test is symmetric on passes of
positive duration, and every pass of positive duration overlaps itself. -/
theorem overlap_check_symmetric_and_reflexive (a b : Pass) :
    (a.rise < a.set → b.rise < b.set →
      passOverlapCheck a b = passOverlapCheck b a) ∧
    (a.rise < a.set → passOverlapCheck a a = true) := by
  constructor
  · intro ha hb
    have key : ∀ x y : Bool, (x = true ↔ y = true) → x = y := by decide
    apply key
    rw [passOverlapCheck_eq_true_iff, passOverlapCheck_eq_true_iff]
    constructor
    · rintro (⟨h1, h2⟩ | ⟨h1, h2⟩)
      · exact Or.inl ⟨h2, h1⟩
      · exact Or.inl ⟨by linarith, h2⟩
    · rintro (⟨h1, h2⟩ | ⟨h1, h2⟩)
      · exact Or.inl ⟨h2, h1⟩
      · exact Or.inl ⟨by linarith, h2⟩
  · intro ha
    rw [passOverlapCheck_eq_true_iff]
    exact Or.inl ⟨ha, ha⟩

/-- Witness for C3 at concrete passes. -/
theorem overlap_check_symmetric_and_reflexive_witness :
    passOverlapCheck ⟨0, 1, 2⟩ ⟨1, 2, 3⟩ = passOverlapCheck ⟨1, 2, 3⟩ ⟨0, 1, 2⟩ ∧
    passOverlapCheck ⟨0, 1, 2⟩ ⟨0, 1, 2⟩ = true :=
  ⟨(overlap_check_symmetric_and_reflexive ⟨0, 1, 2⟩ ⟨1, 2, 3⟩).1
      (by norm_num) (by norm_num),
   (overlap_check_symmetric_and_reflexive ⟨0, 1, 2⟩ ⟨1, 2, 3⟩).2 (by norm_num)⟩

/-- C4 counterexample: a session that ends through the tracking loop's
epilogue (the path taken when the pass time elapses or the satellite drops
below the horizon) resets the status to idle but does NOT clear the
current-pass pointer, contradicting the claim that every terminal path
clears it. -/
theorem track_loop_exit_keeps_current_pass :
    (trackLoopEpilogue
        ⟨⟨10, 45, 1000, some 0, "tracking", some ⟨0, 1/2, 1⟩⟩, true⟩).tracking_data.status
      = "idle" ∧
    ¬ (trackLoopEpilogue
        ⟨⟨10, 45, 1000, some 0, "tracking", some ⟨0, 1/2, 1⟩⟩, true⟩).tracking_data.current_pass
      = none := by
  constructor
  · rfl
  · intro h
    exact Option.noConfusion h

/-- C4 amended: every terminal path resets the status to `"idle"` and
clears `is_tracking`, but only `stop_tracking` clears the current-pass
pointer; the cancel-before-rise exit and the tracking-loop epilogue leave
it unchanged. -/
theorem terminal_paths_status_idle (st : TrackerState) :
    (trackLoopEpilogue st).tracking_data.status = "idle" ∧
    (trackLoopEpilogue st).is_tracking = false ∧
    (trackLoopEpilogue st).tracking_data.current_pass =
      st.tracking_data.current_pass ∧
    (cancelBeforeRiseExit st).tracking_data.status = "idle" ∧
    (cancelBeforeRiseExit st).is_tracking = false ∧
    (cancelBeforeRiseExit st).tracking_data.current_pass =
      st.tracking_data.current_pass ∧
    (st.is_tracking = true →
      (stop_tracking st).1 = true ∧
      (stop_tracking st).2.tracking_data.status = "idle" ∧
      (stop_tracking st).2.tracking_data.current_pass = none ∧
      (stop_tracking st).2.is_tracking = false) := by
  refine ⟨rfl, rfl, rfl, rfl, rfl, rfl, ?_⟩
  intro h
  simp [stop_tracking, h]

/-- Witness for C4's amended theorem at a concrete tracking state. -/
theorem terminal_paths_status_idle_witness :
    (⟨⟨10, 45, 1000, some 0, "tracking", some ⟨0, 1/2, 1⟩⟩,
        true⟩ : TrackerState).is_tracking = true ∧
    (stop_tracking
        ⟨⟨10, 45, 1000, some 0, "tracking", some ⟨0, 1/2, 1⟩⟩,
          true⟩).2.tracking_data.status = "idle" ∧
    (stop_tracking
        ⟨⟨10, 45, 1000, some 0, "tracking", some ⟨0, 1/2, 1⟩⟩,
          true⟩).2.tracking_data.current_pass = none :=
  ⟨rfl,
   ((terminal_paths_status_idle
      ⟨⟨10, 45, 1000, some 0, "tracking", some ⟨0, 1/2, 1⟩⟩,
        true⟩).2.2.2.2.2.2 rfl).2.1,
   ((terminal_paths_status_idle
      ⟨⟨10, 45, 1000, some 0, "tracking", some ⟨0, 1/2, 1⟩⟩,
        true⟩).2.2.2.2.2.2 rfl).2.2.1⟩

/-- C5: each iteration of the tracking loop first exits when
`now > pass.set` (touching neither rotor nor telemetry); otherwise it
writes the computed azimuth and elevation to the rotor, publishes the
tick's telemetry, and then exits whenever the computed elevation is
negative. -/
theorem track_tick_order (sat_pass : Pass) (now az el dist : ℚ)
    (cancelled : Bool) (tel : Telemetry) :
    (now > sat_pass.set →
      trackTick sat_pass now az el dist cancelled tel = ⟨[], tel, .exitLoop⟩) ∧
    (¬ now > sat_pass.set →
      (trackTick sat_pass now az el dist cancelled tel).rotor_writes = [(az, el)] ∧
      (trackTick sat_pass now az el dist cancelled tel).telemetry =
        { tel with azimuth := az, elevation := el, distance := dist,
                   last_updated := some now } ∧
      (el < 0 →
        (trackTick sat_pass now az el dist cancelled tel).outcome = .exitLoop)) := by
  constructor
  · intro h
    simp only [trackTick, if_pos h]
  · intro h
    refine ⟨?_, ?_, ?_⟩
    · simp only [trackTick, if_neg h]
      by_cases h2 : el < 0
      · rw [if_pos h2]
      · rw [if_neg h2]
        by_cases h3 : cancelled = true
        · rw [if_pos h3]
        · rw [if_neg h3]
    · simp only [trackTick, if_neg h]
      by_cases h2 : el < 0
      · rw [if_pos h2]
      · rw [if_neg h2]
        by_cases h3 : cancelled = true
        · rw [if_pos h3]
        · rw [if_neg h3]
    · intro h2
      simp only [trackTick, if_neg h, if_pos h2]

/-- Witness for C5: the elapsed-pass exit at `now = 2 > set = 1`, and a
mid-pass tick at `now = 1/2` with elevation `-1 < 0`. -/
theorem track_tick_order_witness :
    trackTick ⟨0, 1/2, 1⟩ 2 30 40 500 false
        ⟨0, 0, 0, none, "tracking", some ⟨0, 1/2, 1⟩⟩ =
      ⟨[], ⟨0, 0, 0, none, "tracking", some ⟨0, 1/2, 1⟩⟩, .exitLoop⟩ ∧
    ((trackTick ⟨0, 1/2, 1⟩ (1/2) 30 (-1) 500 false
        ⟨0, 0, 0, none, "tracking", some ⟨0, 1/2, 1⟩⟩).rotor_writes = [(30, -1)] ∧
      (trackTick ⟨0, 1/2, 1⟩ (1/2) 30 (-1) 500 false
        ⟨0, 0, 0, none, "tracking", some ⟨0, 1/2, 1⟩⟩).telemetry =
        ⟨30, -1, 500, some (1/2), "tracking", some ⟨0, 1/2, 1⟩⟩ ∧
      (trackTick ⟨0, 1/2, 1⟩ (1/2) 30 (-1) 500 false
        ⟨0, 0, 0, none, "tracking", some ⟨0, 1/2, 1⟩⟩).outcome = .exitLoop) :=
  ⟨(track_tick_order ⟨0, 1/2, 1⟩ 2 30 40 500 false
      ⟨0, 0, 0, none, "tracking", some ⟨0, 1/2, 1⟩⟩).1 (by norm_num),
   ⟨((track_tick_order ⟨0, 1/2, 1⟩ (1/2) 30 (-1) 500 false
      ⟨0, 0, 0, none, "tracking", some ⟨0, 1/2, 1⟩⟩).2 (by norm_num)).1,
    ((track_tick_order ⟨0, 1/2, 1⟩ (1/2) 30 (-1) 500 false
      ⟨0, 0, 0, none, "tracking", some ⟨0, 1/2, 1⟩⟩).2 (by norm_num)).2.1,
    ((track_tick_order ⟨0, 1/2, 1⟩ (1/2) 30 (-1) 500 false
      ⟨0, 0, 0, none, "tracking", some ⟨0, 1/2, 1⟩⟩).2 (by norm_num)).2.2
      (by norm_num)⟩⟩

/-- C6: the public `get_next_pass` with its default (absent) start date
raises instead of returning a value — `ts.from_datetime(None)` is evaluated
before the `or ts.now()` fallback and raises.  (`schedule_pass` likewise
raises `NameError` on every input, see `schedule_pass_always_raises`'s
statement on `schedule_pass_literal`.) -/
theorem get_next_pass_default_start_raises :
    get_next_pass (fun _ => []) 0 true =
      .error (.valueError "from_datetime requires a datetime, not None") := rfl

lemma searchLoop_none_aux (find : Time → List (Time × Nat))
    (hfind : ∀ s, findPassInEvents (find s) = none) :
    ∀ (n k : ℕ), k + n = 10 → ∀ (start : Time) (evs : List (Time × Nat)),
      findPassInEvents evs = none → searchLoop find start evs k = (none, 10) := by
  intro n
  induction n with
  | zero =>
    intro k hk start evs hevs
    rw [searchLoop]
    have hlt : ¬ k < 10 := by omega
    rw [if_neg hlt]
    have : k = 10 := by omega
    rw [this]
  | succ n ih =>
    intro k hk start evs hevs
    rw [searchLoop]
    have hlt : k < 10 := by omega
    rw [if_pos hlt, hevs]
    exact ih (k + 1) (by omega) _ _ (hfind _)

/-- C7: when the event finder never yields a complete
rise-culminate-set triple, `_get_next_pass` (given a start date) returns
no pass, and its search loop stops after exactly 10 attempts. -/
theorem next_pass_search_bounded (find : Time → List (Time × Nat))
    (ts_now start : Time)
    (hfind : ∀ s, findPassInEvents (find s) = none) :
    get_next_pass_inner find ts_now (some start) = .ok none ∧
    searchLoop find start (find start) 0 = (none, 10) := by
  have h := searchLoop_none_aux find hfind 10 0 rfl start (find start) (hfind start)
  constructor
  · have e1 : get_next_pass_inner find ts_now (some start) =
        .ok (searchLoop find start (find start) 0).1 := rfl
    rw [e1, h]
  · exact h

/-- Witness for C7: an event finder that always returns no events. -/
theorem next_pass_search_bounded_witness :
    get_next_pass_inner (fun _ => []) 0 (some 0) = .ok none ∧
    searchLoop (fun _ => []) 0 [] 0 = (none, 10) :=
  next_pass_search_bounded (fun _ => []) 0 0 (fun _ => rfl)

/-- C8: `reload_satellite` refuses (returning `False` with the loaded
satellite untouched) while a session is tracking; otherwise it delegates
to `load_satellite`, which fails when the TLE file is missing or holds no
satellites. -/
theorem reload_satellite_guard (src : TleSource) (st : SatState) :
    (st.sat_is_tracking = true → reload_satellite src st = (false, st)) ∧
    (st.sat_is_tracking = false →
      reload_satellite src st = load_satellite src st ∧
      (src = .missing ∨ src = .entries [] →
        (reload_satellite src st).1 = false)) := by
  constructor
  · intro h
    simp [reload_satellite, h]
  · intro h
    constructor
    · simp [reload_satellite, h]
    · rintro (rfl | rfl) <;> simp [reload_satellite, h, load_satellite]

/-- Witness for C8: reload is refused while tracking, and fails on a
missing TLE file while idle. -/
theorem reload_satellite_guard_witness :
    reload_satellite .missing ⟨some "DISCO", some "DISCO", true⟩ =
      (false, ⟨some "DISCO", some "DISCO", true⟩) ∧
    (reload_satellite .missing ⟨some "DISCO", some "DISCO", false⟩).1 = false :=
  ⟨(reload_satellite_guard .missing ⟨some "DISCO", some "DISCO", true⟩).1 rfl,
   ((reload_satellite_guard .missing ⟨some "DISCO", some "DISCO", false⟩).2
      rfl).2 (Or.inl rfl)⟩

/-- C9: the `/rotor/control` endpoint rejects, before issuing any rotor
command, every request with azimuth outside `[-180, 180]` or elevation
outside `[1, 90]`; the request `(181, 45)` is rejected with the
azimuth-range detail, and the boundary values are accepted. -/
theorem rotor_control_validation (azimuth elevation : Int) :
    ((azimuth < -180 ∨ azimuth > 180 ∨ elevation < 1 ∨ elevation > 90) →
      ∀ a e, ¬ rotor_control azimuth elevation = .commanded a e) ∧
    rotor_control 181 45 = .clientError "Azimuth must be between 180 and -180" ∧
    rotor_control (-180) 45 = .commanded (-180) 45 ∧
    rotor_control 180 45 = .commanded 180 45 ∧
    rotor_control 0 1 = .commanded 0 1 ∧
    rotor_control 0 90 = .commanded 0 90 := by
  refine ⟨?_, by decide, by decide, by decide, by decide, by decide⟩
  intro h a e
  by_cases h1 : azimuth > 180 ∨ azimuth < -180
  · simp [rotor_control, h1]
  · have h2 : elevation < 1 ∨ elevation > 90 := by
      rcases h with h | h | h | h
      · exact absurd (Or.inr h) h1
      · exact absurd (Or.inl h) h1
      · exact Or.inl h
      · exact Or.inr h
    simp [rotor_control, h1, h2]

/-- Witness for C9 at the out-of-range request `(181, 45)`. -/
theorem rotor_control_validation_witness :
    ((181 : Int) < -180 ∨ (181 : Int) > 180 ∨ (45 : Int) < 1 ∨ (45 : Int) > 90) ∧
    ∀ a e, ¬ rotor_control 181 45 = .commanded a e :=
  ⟨Or.inr (Or.inl (by decide)),
   (rotor_control_validation 181 45).1 (Or.inr (Or.inl (by decide)))⟩

/-- C10: `load_satellite` succeeds exactly when the TLE source parses to a
non-empty satellite list, in which case it stores the first entry (and its
name) and ignores the rest; on every failure the previously loaded
satellite is unchanged. -/
theorem load_satellite_first_entry (src : TleSource) (st : SatState) :
    ((load_satellite src st).1 = true ↔
      ∃ s rest, src = .entries (s :: rest)) ∧
    (∀ s rest, src = .entries (s :: rest) →
      load_satellite src st =
        (true, { st with satellite := some s, satellite_name := some s })) ∧
    ((load_satellite src st).1 = false → (load_satellite src st).2 = st) := by
  rcases src with _ | _ | sats
  · simp [load_satellite]
  · simp [load_satellite]
  · rcases sats with _ | ⟨s, rest⟩
    · simp [load_satellite]
    · refine ⟨?_, ?_, ?_⟩
      · simp only [load_satellite, true_iff]
        exact ⟨s, rest, rfl⟩
      · intro s' rest' hsrc
        obtain ⟨rfl, rfl⟩ : s = s' ∧ rest = rest' := by
          have := hsrc
          injection this with h
          injection h with h1 h2
          exact ⟨h1, h2⟩
        rfl
      · intro hfalse
        exact absurd hfalse (by simp [load_satellite])

/-- Witness for C10: a two-satellite file loads the first entry; a missing
file leaves the state unchanged. -/
theorem load_satellite_first_entry_witness :
    load_satellite (.entries ["DISCO-1", "DISCO-2"]) ⟨none, none, false⟩ =
      (true, ⟨some "DISCO-1", some "DISCO-1", false⟩) ∧
    (load_satellite .missing ⟨some "OLD", some "OLD", false⟩).2 =
      ⟨some "OLD", some "OLD", false⟩ :=
  ⟨(load_satellite_first_entry (.entries ["DISCO-1", "DISCO-2"])
      ⟨none, none, false⟩).2.1 "DISCO-1" ["DISCO-2"] rfl,
   (load_satellite_first_entry .missing ⟨some "OLD", some "OLD", false⟩).2.2 rfl⟩

end Sattrack
